import Mathlib

/-!
Shallow embedding of the attendance front-end pages
(`src/frontend/src/pages/StudentManagementPage.jsx` and
`src/frontend/src/pages/AttendanceHubPage.jsx`).

Each React handler is embedded as a pure transition on its component's
state.  Outcomes of asynchronous boundary calls (camera acquisition,
backend HTTP responses, the operator's confirm prompt) are passed in as
explicit arguments.  Observable side effects — network requests, device
track stops, websocket opens/closes, timer cancellation, toasts — are
returned as an explicit event trace, so "performs no network call" and
"every acquired track is stopped" are statements about that trace.
-/

/-- Observable side effects emitted by a handler. -/
inductive Event where
  | netGet (path : String)
  | netPost (path : String)
  | netDelete (path : String)
  | cameraRequest
  | trackStop (track : Nat)
  | wsOpen (url : String)
  | wsClose
  | clearTimer
  | toastError (msg : String)
  | toastSuccess (msg : String)
deriving DecidableEq

/-- An event is a backend network call (HTTP request). -/
def Event.isNet : Event → Bool
  | .netGet _ => true
  | .netPost _ => true
  | .netDelete _ => true
  | _ => false

/-- The fixed ordered angle list `CAPTURE_ANGLES` of StudentManagementPage.jsx. -/
def CAPTURE_ANGLES : List String := ["Front", "Left", "Right", "Look Up"]

/-- A backend student record as mirrored in the page's `students` state. -/
structure Student where
  id : Nat
  full_name : String
  has_face : Bool
deriving DecidableEq

/-- State of StudentManagementPage: the `students`, `capturing`,
`capturedImages`, `currentAngle` React state plus the `streamRef` ref
(the held camera stream, as the list of its device track ids). -/
structure SMState where
  students : List Student
  capturing : Option Nat
  capturedImages : List String
  currentAngle : Nat
  streamRef : Option (List Nat)
deriving DecidableEq

/-- `handleDelete`: the synchronous `confirm` prompt result and the backend
outcome are arguments.  On decline it returns before any request; `students`
is only changed later by the `loadStudents` re-fetch response. -/
def handleDelete (s : SMState) (id : Nat) (confirmed : Bool) (backendOk : Bool) :
    SMState × List Event :=
  if !confirmed then (s, [])
  else if backendOk then
    (s, [Event.netDelete ("/students/" ++ toString id),
         Event.toastSuccess "Student deleted",
         Event.netGet "/students/"])
  else
    (s, [Event.netDelete ("/students/" ++ toString id),
         Event.toastError "Failed to delete"])

/-- `startCapture(studentId)`: sets `capturing`, clears the image list and
angle index, then awaits `getUserMedia`; on success stores the stream in
`streamRef`, on denial toasts and resets `capturing` (it does not touch
`streamRef`). `camera` is the acquisition outcome (track ids on success). -/
def startCapture (s : SMState) (studentId : Nat) (camera : Option (List Nat)) :
    SMState × List Event :=
  let s1 := { s with capturing := some studentId, capturedImages := [], currentAngle := 0 }
  match camera with
  | some tracks => ({ s1 with streamRef := some tracks }, [Event.cameraRequest])
  | none =>
      ({ s1 with capturing := none },
       [Event.cameraRequest, Event.toastError "Camera access denied"])

/-- `captureFrame`: guarded by `!videoRef.current || !canvasRef.current`.
The `<video>`/`<canvas>` elements are mounted exactly while the capture
modal is rendered, i.e. while `capturing` is non-null, so the guard is a
test on `capturing` — the source does not consult `streamRef`.  `frame` is
the base64 string the canvas snapshot produces.  It appends the frame,
increments `currentAngle` (uncapped), and toasts when the angle list is
exhausted. -/
def captureFrame (s : SMState) (frame : String) : SMState × List Event :=
  match s.capturing with
  | none => (s, [])
  | some _ =>
      let nextAngle := s.currentAngle + 1
      ({ s with capturedImages := s.capturedImages ++ [frame], currentAngle := nextAngle },
       if CAPTURE_ANGLES.length ≤ nextAngle then [Event.toastSuccess "All angles captured!"]
       else [])

/-- `stopCapture`: stops every track of the held stream (if any), clears the
stream handle, and resets `capturing`, `capturedImages`, `currentAngle`. -/
def stopCapture (s : SMState) : SMState × List Event :=
  ({ s with capturing := none, capturedImages := [], currentAngle := 0, streamRef := none },
   (s.streamRef.getD []).map Event.trackStop)

/-- `submitFaces`: fails locally when no images are captured; otherwise posts
the full list, and on success runs `stopCapture` then re-fetches students.
`backendOk` is the POST outcome. -/
def submitFaces (s : SMState) (backendOk : Bool) : SMState × List Event :=
  if s.capturedImages.isEmpty then (s, [Event.toastError "No images captured"])
  else
    let post := Event.netPost ("/students/" ++ toString (s.capturing.getD 0) ++ "/face")
    if backendOk then
      let r := stopCapture s
      (r.1, post :: Event.toastSuccess "Face registered successfully!" ::
              r.2 ++ [Event.netGet "/students/"])
    else (s, [post, Event.toastError "Face registration failed"])

/-- A sequence of `captureFrame` calls, threading the state. -/
def iterCapture (s : SMState) (frames : List String) : SMState :=
  frames.foldl (fun st f => (captureFrame st f).1) s

/-- An active attendance session as mirrored in `session` state. -/
structure Session where
  id : Nat
deriving DecidableEq

/-- A per-student roll-call entry as mirrored in `logs` state. -/
structure Log where
  id : Nat
  student_id : Nat
  student_name : String
  status : String
deriving DecidableEq

/-- The session summary returned by `POST /attendance/stop`. -/
structure Summary where
  session_id : Nat
  total_students : Nat
  present_count : Nat
  absent_count : Nat
deriving DecidableEq

/-- State of AttendanceHubPage: `session`, `logs`, `streaming`, `summary`
React state plus the `streamRef`, `wsRef`, `intervalRef` refs and the
annotated-feed image element's current `src` (`feedImg`). -/
structure AHState where
  session : Option Session
  logs : List Log
  streaming : Bool
  summary : Option Summary
  streamRef : Option (List Nat)
  wsRef : Option Nat
  intervalRef : Option Nat
  feedImg : Option String
deriving DecidableEq

/-- `stopStreaming`: cancels the frame timer if set, closes the websocket if
set, stops every track of the held stream if set, then sets `streaming`
to false. -/
def stopStreaming (s : AHState) : AHState × List Event :=
  let r1 : AHState × List Event :=
    match s.intervalRef with
    | some _ => ({ s with intervalRef := none }, [Event.clearTimer])
    | none => (s, [])
  let r2 : AHState × List Event :=
    match r1.1.wsRef with
    | some _ => ({ r1.1 with wsRef := none }, [Event.wsClose])
    | none => (r1.1, [])
  let r3 : AHState × List Event :=
    match r2.1.streamRef with
    | some tracks => ({ r2.1 with streamRef := none }, tracks.map Event.trackStop)
    | none => (r2.1, [])
  ({ r3.1 with streaming := false }, r1.2 ++ r2.2 ++ r3.2)

/-- `startStreaming`: returns with only a toast when no session is active;
otherwise requests the camera (abort on denial) and opens the websocket.
The `onopen` callback firing later is `wsOnOpen`. -/
def startStreaming (s : AHState) (camera : Option (List Nat)) : AHState × List Event :=
  match s.session with
  | none => (s, [Event.toastError "Start a session first"])
  | some _ =>
      match camera with
      | none => (s, [Event.cameraRequest, Event.toastError "Camera access denied"])
      | some tracks =>
          ({ s with streamRef := some tracks, wsRef := some 0 },
           [Event.cameraRequest, Event.wsOpen "/api/attendance/ws"])

/-- The websocket `onopen` callback: sets `streaming` and starts the 200ms
frame timer. -/
def wsOnOpen (s : AHState) : AHState × List Event :=
  ({ s with streaming := true, intervalRef := some 0 },
   [Event.toastSuccess "Camera feed started"])

/-- An inbound websocket message: optional annotated-frame payload and a
list of recognized-student names. -/
structure WsMsg where
  frame : Option String
  detections : List String
deriving DecidableEq

/-- JS truthiness of `data.frame`: the field is present and non-empty. -/
def WsMsg.hasTruthyFrame (m : WsMsg) : Bool :=
  match m.frame with
  | some f => !(f == "")
  | none => false

/-- The websocket `onmessage` callback: `if (data.frame && feedImgRef.current)`
replaces the displayed image (the `<img>` element is mounted exactly while
`streaming` is true); detections each toast and trigger one `loadLogs`
re-fetch (whose response lands later). -/
def wsOnMessage (s : AHState) (m : WsMsg) : AHState × List Event :=
  let s1 := if m.hasTruthyFrame && s.streaming then { s with feedImg := m.frame } else s
  let evs :=
    if 0 < m.detections.length then
      m.detections.map (fun n => Event.toastSuccess (n ++ " marked present")) ++
        [Event.netGet ("/attendance/session/" ++
          toString ((s.session.map Session.id).getD 0) ++ "/logs")]
    else []
  (s1, evs)

/-- Processing a finite scripted sequence of inbound messages. -/
def processMsgs (s : AHState) (msgs : List WsMsg) : AHState :=
  msgs.foldl (fun st m => (wsOnMessage st m).1) s

/-- The frame payload of a message when truthy, else none. -/
def truthyFrame (m : WsMsg) : Option String :=
  if m.hasTruthyFrame then m.frame else none

/-- Spec-side function (refinement target, following the claim's words with
the truthiness amendment): the payload of the last message of the sequence
carrying a non-empty `frame` field. -/
def lastTruthyFrame : List WsMsg → Option String
  | [] => none
  | m :: ms => (lastTruthyFrame ms).or (truthyFrame m)

/-- Spec-side function following the claim's words literally: the payload of
the last message of the sequence that carried a `frame` field at all. -/
def lastCarriedFrame : List WsMsg → Option String
  | [] => none
  | m :: ms => (lastCarriedFrame ms).or m.frame

/-- `stopSession`: runs `stopStreaming` first, then posts `/attendance/stop`;
`result` is the backend outcome (the summary on success). -/
def stopSession (s : AHState) (result : Option Summary) : AHState × List Event :=
  let r := stopStreaming s
  match result with
  | some sm =>
      ({ r.1 with summary := some sm, session := none },
       r.2 ++ [Event.netPost "/attendance/stop",
               Event.toastSuccess "Session ended. Summary generated."])
  | none =>
      (r.1, r.2 ++ [Event.netPost "/attendance/stop",
                    Event.toastError "Failed to stop session"])

/-- `toggleStatus` (manual override): posts the opposite status and on
success re-fetches logs; on failure only toasts.  The source reads
`session.id`; the override button is rendered only while a session is
active, so the `none` branch is unreachable in the UI. -/
def toggleStatus (s : AHState) (log : Log) (backendOk : Bool) : AHState × List Event :=
  match s.session with
  | none => (s, [])
  | some sess =>
      let newStatus := if log.status == "present" then "absent" else "present"
      if backendOk then
        (s, [Event.netPost "/attendance/override",
             Event.netGet ("/attendance/session/" ++ toString sess.id ++ "/logs"),
             Event.toastSuccess (log.student_name ++ " marked " ++ newStatus)])
      else (s, [Event.netPost "/attendance/override", Event.toastError "Override failed"])

/-- An idle StudentManagementPage state (fresh mount, before any capture). -/
def idleSM : SMState :=
  { students := [], capturing := none, capturedImages := [], currentAngle := 0,
    streamRef := none }

/-- The state while `startCapture`'s camera request is still pending: the
modal is mounted (`capturing` set) but no stream has been acquired. -/
def pendingCameraSM : SMState :=
  { students := [], capturing := some 1, capturedImages := [], currentAngle := 0,
    streamRef := none }

/-- A StudentManagementPage state at the end of a capture: all four angle
images collected, the camera stream (two tracks) still held. -/
def fullCaptureSM : SMState :=
  { students := [], capturing := some 1, capturedImages := ["a", "b", "c", "d"],
    currentAngle := 4, streamRef := some [0, 1] }

/-- An idle AttendanceHubPage state (fresh mount, no active session). -/
def idleAH : AHState :=
  { session := none, logs := [], streaming := false, summary := none,
    streamRef := none, wsRef := none, intervalRef := none, feedImg := none }

/-- An AttendanceHubPage state in the middle of streaming: active session,
open websocket, running timer, held camera stream. -/
def streamingAH : AHState :=
  { session := some ⟨1⟩, logs := [], streaming := true, summary := none,
    streamRef := some [0], wsRef := some 0, intervalRef := some 0, feedImg := none }

/-- C10: when the operator declines the confirmation prompt, `handleDelete`
performs no network call and the student list state is unchanged; in fact
the state is untouched and the event trace is empty. -/
theorem handleDelete_declined_noop (s : SMState) (id : Nat) (backendOk : Bool) :
    handleDelete s id false backendOk = (s, []) ∧
    ∀ e ∈ (handleDelete s id false backendOk).2, e.isNet = false := by
  constructor
  · rfl
  · intro e he
    simp [handleDelete] at he

/-- C2: `submitFaces` with an empty captured-image list fails locally with
the "no images" error, performs no network call, and leaves the whole
capture state unchanged. -/
theorem submitFaces_empty_local_failure (s : SMState) (backendOk : Bool)
    (h : s.capturedImages = []) :
    (submitFaces s backendOk).1 = s ∧
    (submitFaces s backendOk).2 = [Event.toastError "No images captured"] ∧
    ∀ e ∈ (submitFaces s backendOk).2, e.isNet = false := by
  have he : s.capturedImages.isEmpty = true := by simp [h]
  refine ⟨?_, ?_, ?_⟩ <;> simp [submitFaces, he, Event.isNet]

theorem submitFaces_empty_local_failure_witness :
    (submitFaces idleSM true).1 = idleSM ∧
    (submitFaces idleSM true).2 = [Event.toastError "No images captured"] ∧
    ∀ e ∈ (submitFaces idleSM true).2, e.isNet = false :=
  submitFaces_empty_local_failure idleSM true rfl

/-- C8: `startCapture` on camera-access denial reports the failure and ends
outside capture state: no capture-in-progress marker, no camera stream
(given none was held before), an empty captured list and angle index 0. -/
theorem startCapture_denied_aborts (s : SMState) (studentId : Nat)
    (h : s.streamRef = none) :
    (startCapture s studentId none).1.capturing = none ∧
    (startCapture s studentId none).1.streamRef = none ∧
    (startCapture s studentId none).1.capturedImages = [] ∧
    (startCapture s studentId none).1.currentAngle = 0 ∧
    Event.toastError "Camera access denied" ∈ (startCapture s studentId none).2 := by
  refine ⟨rfl, ?_, rfl, rfl, ?_⟩
  · simpa [startCapture] using h
  · simp [startCapture]

theorem startCapture_denied_aborts_witness :
    (startCapture idleSM 7 none).1.capturing = none ∧
    (startCapture idleSM 7 none).1.streamRef = none ∧
    (startCapture idleSM 7 none).1.capturedImages = [] ∧
    (startCapture idleSM 7 none).1.currentAngle = 0 ∧
    Event.toastError "Camera access denied" ∈ (startCapture idleSM 7 none).2 :=
  startCapture_denied_aborts idleSM 7 rfl

/-- C4: `startStreaming` with no active session fails immediately with only a
user-visible error: the state is unchanged and the trace holds no camera
request and no websocket open. -/
theorem startStreaming_no_session (s : AHState) (camera : Option (List Nat))
    (h : s.session = none) :
    startStreaming s camera = (s, [Event.toastError "Start a session first"]) ∧
    Event.cameraRequest ∉ (startStreaming s camera).2 ∧
    ∀ u, Event.wsOpen u ∉ (startStreaming s camera).2 := by
  have h1 : startStreaming s camera = (s, [Event.toastError "Start a session first"]) := by
    simp [startStreaming, h]
  refine ⟨h1, ?_, ?_⟩
  · simp [h1]
  · intro u; simp [h1]

theorem startStreaming_no_session_witness :
    startStreaming idleAH (some [0]) = (idleAH, [Event.toastError "Start a session first"]) ∧
    Event.cameraRequest ∉ (startStreaming idleAH (some [0])).2 ∧
    ∀ u, Event.wsOpen u ∉ (startStreaming idleAH (some [0])).2 :=
  startStreaming_no_session idleAH (some [0]) rfl

/-- C5: `stopStreaming` is idempotent: after one run the timer, websocket and
stream refs are all cleared and `streaming` is false, so a second
consecutive run returns the same state with an empty event trace. -/
theorem stopStreaming_idempotent (s : AHState) :
    stopStreaming (stopStreaming s).1 = ((stopStreaming s).1, []) := by
  rcases s with ⟨sess, logs, str, sum, sr, wr, ir, fi⟩
  cases sr <;> cases wr <;> cases ir <;> rfl

/-- Helper for C1: with the capture modal mounted, each `captureFrame` call
appends exactly one image and advances the angle index by one, preserving
`capturing`. -/
theorem iterCapture_counts (frames : List String) :
    ∀ s : SMState, s.capturing.isSome →
      (iterCapture s frames).capturedImages.length =
        s.capturedImages.length + frames.length ∧
      (iterCapture s frames).currentAngle = s.currentAngle + frames.length := by
  induction frames with
  | nil => intro s _; simp [iterCapture]
  | cons f fs ih =>
    intro s hs
    obtain ⟨sid, hsid⟩ := Option.isSome_iff_exists.mp hs
    have hstep : (captureFrame s f).1 =
        { s with capturedImages := s.capturedImages ++ [f],
                 currentAngle := s.currentAngle + 1 } := by
      simp [captureFrame, hsid]
    have hcap : (captureFrame s f).1.capturing.isSome := by rw [hstep]; simp [hsid]
    have h2 := ih (captureFrame s f).1 hcap
    have hit : iterCapture s (f :: fs) = iterCapture (captureFrame s f).1 fs := rfl
    rw [hit, hstep] at *
    obtain ⟨h2a, h2b⟩ := h2
    constructor
    · rw [h2a]; simp; omega
    · rw [h2b]; simp; omega

/-- C1: starting from a successful `startCapture`, any sequence of k
`captureCurrent()` calls (k at most the angle-list length) with the stream
active yields exactly k captured images and angle index k. -/
theorem capture_loop_counts (s : SMState) (studentId : Nat) (tracks : List Nat)
    (frames : List String) (_hk : frames.length ≤ CAPTURE_ANGLES.length) :
    (iterCapture (startCapture s studentId (some tracks)).1 frames).capturedImages.length
      = frames.length ∧
    (iterCapture (startCapture s studentId (some tracks)).1 frames).currentAngle
      = frames.length := by
  obtain ⟨h1, h2⟩ :=
    iterCapture_counts frames (startCapture s studentId (some tracks)).1 rfl
  have e1 : (startCapture s studentId (some tracks)).1.capturedImages = [] := rfl
  have e2 : (startCapture s studentId (some tracks)).1.currentAngle = 0 := rfl
  rw [e1] at h1
  rw [e2] at h2
  refine ⟨?_, ?_⟩
  · simpa using h1
  · simpa using h2

theorem capture_loop_counts_witness :
    (iterCapture (startCapture idleSM 1 (some [0])).1 ["a", "b"]).capturedImages.length
      = 2 ∧
    (iterCapture (startCapture idleSM 1 (some [0])).1 ["a", "b"]).currentAngle = 2 :=
  capture_loop_counts idleSM 1 [0] ["a", "b"] (by decide)

/-- C3: `stopCapture` from any state, and `submitFaces` with a non-empty image
list and a successful backend call, both clear the stream handle, reset the
angle index to 0 and the image list to empty, and emit a stop for every track
of the held stream. -/
theorem capture_teardown_releases (s t : SMState) (h : t.capturedImages ≠ []) :
    ((stopCapture s).1.streamRef = none ∧
     (stopCapture s).1.currentAngle = 0 ∧
     (stopCapture s).1.capturedImages = [] ∧
     ∀ tr ∈ s.streamRef.getD [], Event.trackStop tr ∈ (stopCapture s).2) ∧
    ((submitFaces t true).1.streamRef = none ∧
     (submitFaces t true).1.currentAngle = 0 ∧
     (submitFaces t true).1.capturedImages = [] ∧
     ∀ tr ∈ t.streamRef.getD [], Event.trackStop tr ∈ (submitFaces t true).2) := by
  have hemp : t.capturedImages.isEmpty = false := by
    simpa [List.isEmpty_iff] using h
  refine ⟨⟨rfl, rfl, rfl, ?_⟩, ?_, ?_, ?_, ?_⟩
  · intro tr htr
    simp only [stopCapture, List.mem_map]
    exact ⟨tr, htr, rfl⟩
  · simp [submitFaces, hemp, stopCapture]
  · simp [submitFaces, hemp, stopCapture]
  · simp [submitFaces, hemp, stopCapture]
  · intro tr htr
    have htrace : (submitFaces t true).2 =
        Event.netPost ("/students/" ++ toString (t.capturing.getD 0) ++ "/face") ::
          Event.toastSuccess "Face registered successfully!" ::
            (t.streamRef.getD []).map Event.trackStop ++ [Event.netGet "/students/"] := by
      simp [submitFaces, hemp, stopCapture]
    rw [htrace]
    simp only [List.mem_cons, List.mem_append, List.mem_map]
    left; right; right
    exact ⟨tr, htr, rfl⟩

theorem capture_teardown_releases_witness :
    ((stopCapture pendingCameraSM).1.streamRef = none ∧
     (stopCapture pendingCameraSM).1.currentAngle = 0 ∧
     (stopCapture pendingCameraSM).1.capturedImages = [] ∧
     ∀ tr ∈ pendingCameraSM.streamRef.getD [],
       Event.trackStop tr ∈ (stopCapture pendingCameraSM).2) ∧
    ((submitFaces fullCaptureSM true).1.streamRef = none ∧
     (submitFaces fullCaptureSM true).1.currentAngle = 0 ∧
     (submitFaces fullCaptureSM true).1.capturedImages = [] ∧
     ∀ tr ∈ fullCaptureSM.streamRef.getD [],
       Event.trackStop tr ∈ (submitFaces fullCaptureSM true).2) :=
  capture_teardown_releases pendingCameraSM fullCaptureSM (by decide)

/-- C9 (counterexample): in the reachable state where the capture modal is
mounted but the camera request is still pending, there is no active stream
yet `captureFrame` is not a no-op: it appends a frame and advances the
angle index. -/
theorem captureFrame_no_stream_not_noop :
    pendingCameraSM.streamRef = none ∧
    (captureFrame pendingCameraSM "f").1.capturedImages ≠
      pendingCameraSM.capturedImages ∧
    (captureFrame pendingCameraSM "f").1.currentAngle ≠
      pendingCameraSM.currentAngle := by
  refine ⟨rfl, ?_, ?_⟩ <;> decide

/-- C9 (amended): `captureFrame` is a no-op exactly when the modal's video
and canvas elements are unmounted, i.e. when no capture is in progress; the
camera stream itself is never consulted.  In particular the call is a no-op
whenever no capture is in progress. -/
theorem captureFrame_unmounted_noop (s : SMState) (frame : String)
    (h : s.capturing = none) :
    captureFrame s frame = (s, []) := by
  simp [captureFrame, h]

theorem captureFrame_unmounted_noop_witness :
    captureFrame idleSM "f" = (idleSM, []) :=
  captureFrame_unmounted_noop idleSM "f" rfl

/-- Helper for C6: the message handler never changes the streaming flag. -/
theorem wsOnMessage_streaming (s : AHState) (m : WsMsg) :
    (wsOnMessage s m).1.streaming = s.streaming := by
  simp only [wsOnMessage]
  split <;> rfl

/-- Helper for C6: with the feed image mounted (streaming), one message sets
the display to its truthy frame payload, if any, else leaves it alone. -/
theorem wsOnMessage_feedImg (s : AHState) (m : WsMsg) (h : s.streaming = true) :
    (wsOnMessage s m).1.feedImg = (truthyFrame m).or s.feedImg := by
  cases ht : m.hasTruthyFrame
  · simp [wsOnMessage, truthyFrame, ht]
  · cases hf : m.frame with
    | none => simp [WsMsg.hasTruthyFrame, hf] at ht
    | some f =>
        have : (wsOnMessage s m).1.feedImg = m.frame := by
          simp [wsOnMessage, ht, h]
        rw [this, hf]
        simp [truthyFrame, ht, hf]

/-- Helper for C6: folding the handler over a message sequence. -/
theorem processMsgs_feedImg (msgs : List WsMsg) :
    ∀ s : AHState, s.streaming = true →
      (processMsgs s msgs).feedImg = (lastTruthyFrame msgs).or s.feedImg := by
  induction msgs with
  | nil => intro s _; rfl
  | cons m ms ih =>
    intro s h
    have hstr : (wsOnMessage s m).1.streaming = true := by
      rw [wsOnMessage_streaming]; exact h
    have hrec := ih (wsOnMessage s m).1 hstr
    have hstep : processMsgs s (m :: ms) = processMsgs (wsOnMessage s m).1 ms := rfl
    rw [hstep, hrec, wsOnMessage_feedImg s m h, lastTruthyFrame]
    cases lastTruthyFrame ms <;> rfl

/-- C6 (amended): after processing any finite inbound-message sequence while
streaming, the displayed annotated frame equals the payload of the last
message carrying a non-empty (JS-truthy) frame field, or the previously
displayed frame when no message does; interleaved detections-only messages
never affect it. -/
theorem displayed_frame_last_truthy (s : AHState) (msgs : List WsMsg)
    (h : s.streaming = true) :
    (processMsgs s msgs).feedImg = (lastTruthyFrame msgs).or s.feedImg :=
  processMsgs_feedImg msgs s h

theorem displayed_frame_last_truthy_witness :
    (processMsgs streamingAH [⟨some "a", []⟩, ⟨none, ["x"]⟩, ⟨some "b", []⟩]).feedImg =
      (lastTruthyFrame [⟨some "a", []⟩, ⟨none, ["x"]⟩, ⟨some "b", []⟩]).or
        streamingAH.feedImg :=
  displayed_frame_last_truthy streamingAH [⟨some "a", []⟩, ⟨none, ["x"]⟩, ⟨some "b", []⟩] rfl

/-- C6 (counterexample): the handler tests JS truthiness of `data.frame`, so a
trailing message whose frame field is the empty string is ignored: the
display keeps the earlier frame and does not equal the payload of the last
message that carried a `frame` field. -/
theorem displayed_frame_counterexample :
    lastCarriedFrame [⟨some "abc", []⟩, ⟨some "", []⟩] = some "" ∧
    (processMsgs streamingAH [⟨some "abc", []⟩, ⟨some "", []⟩]).feedImg = some "abc" ∧
    (processMsgs streamingAH [⟨some "abc", []⟩, ⟨some "", []⟩]).feedImg ≠
      lastCarriedFrame [⟨some "abc", []⟩, ⟨some "", []⟩] := by
  refine ⟨rfl, ?_, ?_⟩ <;> decide

/-- Helper for C7: `stopStreaming` never touches the backend-mirroring view
state (session, logs, summary). -/
theorem stopStreaming_preserves_view (s : AHState) :
    (stopStreaming s).1.session = s.session ∧ (stopStreaming s).1.logs = s.logs ∧
    (stopStreaming s).1.summary = s.summary := by
  rcases s with ⟨sess, logs, str, sum, sr, wr, ir, fi⟩
  cases sr <;> cases wr <;> cases ir <;> exact ⟨rfl, rfl, rfl⟩

/-- C7 (amended): a failed backend call leaves local view state unchanged for
the manual override and the face submit; for session stop, the
backend-mirroring state (session, logs, summary) is unchanged, but the
streaming teardown performed before the call persists: the resulting state
is exactly `stopStreaming` of the pre-call state. -/
theorem backend_failure_preserves_state (sa : AHState) (log : Log) (ss : SMState) :
    (toggleStatus sa log false).1 = sa ∧
    (submitFaces ss false).1 = ss ∧
    (stopSession sa none).1 = (stopStreaming sa).1 ∧
    (stopSession sa none).1.session = sa.session ∧
    (stopSession sa none).1.logs = sa.logs ∧
    (stopSession sa none).1.summary = sa.summary := by
  obtain ⟨hv1, hv2, hv3⟩ := stopStreaming_preserves_view sa
  refine ⟨?_, ?_, rfl, hv1, hv2, hv3⟩
  · cases hs : sa.session <;> simp [toggleStatus, hs]
  · cases hh : ss.capturedImages.isEmpty <;> simp [submitFaces, hh]

/-- C7 (counterexample): `stopSession` runs `stopStreaming` before the backend
call, so a failed call from a streaming state does not leave the view state
unchanged: the streaming flag has flipped (and the camera, websocket and
timer are gone). -/
theorem stopSession_failure_changes_state :
    (stopSession streamingAH none).1 ≠ streamingAH ∧
    (stopSession streamingAH none).1.streaming = false ∧
    streamingAH.streaming = true := by
  refine ⟨?_, rfl, rfl⟩
  decide
